import Mathlib

set_option linter.unusedVariables false

set_option linter.unnecessarySeqFocus false

/-!
Shallow embedding of `src/watched.h` from the cryptominisat repository:
the packed watch record `Watched`, the occurrence pair `OccurClause` with
its order, and the canonical watch-list comparator `WatchSorterBinTriLong`.

Machine integers are modelled as `Nat` with explicit reductions modulo
`2^w` where the C++ code truncates (bitfield stores, `uint32_t` stores).
`DEBUG_WATCHED` is not defined in the source (the `#define` is commented
out), so the `DEBUG_WATCHED_DO` assertions are compiled out and the
accessors are total functions on the record; the remaining plain
`assert`s are preconditions recorded in doc comments and carried as
hypotheses in the theorems that need them.
-/

namespace CMSat

/-- Modelled from the spec: `constants.h` (EFFECTIVELY_USEABLE_BITS) and
`cloffset.h` (ClOffset) are not under `src/`.  Per the spec, the 2-bit
discriminant is carved out of the fixed-width integer backing the
offset/payload, leaving usable width = native width - 2; the native word
is 32 bits (the default constructor fills the second word with
`uint32_t` max shifted right by 2), so 30 bits are usable. -/
def EFFECTIVELY_USEABLE_BITS : Nat := 30

/-- Modelled from the spec: `solvertypes.h` is not under `src/`.  A
literal is an opaque value with a reversible packed-integer encoding
(`toInt`/`toLit` round-trip) and a total order given by comparing the
encodings.  The encoding is backed by a 32-bit word. -/
structure Lit where
  x : Nat
deriving DecidableEq

def Lit.toInt (l : Lit) : Nat := l.x

def Lit.toLit (n : Nat) : Lit := ⟨n⟩

/-- `operator<` on literals: compares the packed encodings. -/
def Lit.lt (a b : Lit) : Bool := decide (a.x < b.x)

/-- `enum WatchType` with values 0..3; all four fit the 2-bit tag field,
so the inductive is an exact model of the discriminant. -/
inductive WatchType where
  | watch_clause_t
  | watch_binary_t
  | watch_bnn_t
  | watch_idx_t
deriving DecidableEq

/-- `enum BNNPropType` with values 0..2. -/
inductive BNNPropType where
  | bnn_pos_t
  | bnn_neg_t
  | bnn_out_t
deriving DecidableEq

def BNNPropType.toNat : BNNPropType → Nat
  | .bnn_pos_t => 0
  | .bnn_neg_t => 1
  | .bnn_out_t => 2

/-- The C++ cast `(BNNPropType)data2`; only meaningful for stored role
values 0..2, which are the only values the bnn constructor stores. -/
def BNNPropType.ofData2 (n : Nat) : BNNPropType :=
  if n = 0 then .bnn_pos_t else if n = 1 then .bnn_neg_t else .bnn_out_t

/-- `class Watched`: `data1` is a `uint32_t` (< 2^32), `type` the 2-bit
discriminant, `data2` a bitfield of EFFECTIVELY_USEABLE_BITS = 30 bits
(< 2^30). -/
structure Watched where
  data1 : Nat
  type : WatchType
  data2 : Nat
deriving DecidableEq

/-- `Watched(const ClOffset offset, Lit blockedLit)`: long-clause watch
holding a blocking literal. -/
def Watched.mk_clause_blocked (offset : Nat) (blockedLit : Lit) : Watched :=
  ⟨blockedLit.toInt % 2 ^ 32, .watch_clause_t, offset % 2 ^ EFFECTIVELY_USEABLE_BITS⟩

/-- `Watched(const ClOffset offset, cl_abst_type abst)`: long-clause
watch holding an abstraction signature (`cl_abst_type` is a 32-bit
pattern, stored verbatim in `data1`). -/
def Watched.mk_clause_abst (offset : Nat) (abst : Nat) : Watched :=
  ⟨abst % 2 ^ 32, .watch_clause_t, offset % 2 ^ EFFECTIVELY_USEABLE_BITS⟩

/-- `Watched(const uint32_t idx, WatchType t)`: carries the active
precondition `assert(t == watch_idx_t)`.  The source leaves `data2`
uninitialized; the claims never read it, and it is modelled as 0. -/
def Watched.mk_idx (idx : Nat) (t : WatchType) : Watched :=
  ⟨idx % 2 ^ 32, t, 0⟩

/-- `Watched(const uint32_t idx, WatchType t, BNNPropType bnn_p_t)`; the
debug-only assertion `t == watch_bnn_t` is compiled out. -/
def Watched.mk_bnn (idx : Nat) (t : WatchType) (bnn_p_t : BNNPropType) : Watched :=
  ⟨idx % 2 ^ 32, t, bnn_p_t.toNat % 2 ^ EFFECTIVELY_USEABLE_BITS⟩

/-- `Watched()`: the default constructor; `data1` is `uint32_t` max and
`data2` is `uint32_t` max shifted right by 2. -/
def Watched.mk_default : Watched :=
  ⟨2 ^ 32 - 1, .watch_clause_t, (2 ^ 32 - 1) / 4⟩

/-- `Watched(const Lit lit, const bool red, uint64_t ID)`: binary-clause
watch.  `data2 = (uint64_t)red | ID<<2`; the shift is on the 64-bit
operand (mod 2^64) and the result is truncated by the 30-bit bitfield;
the bitwise OR equals addition because the low two bits of `ID<<2` are
zero.  There is no range check on `ID` in this source. -/
def Watched.mk_bin (lit : Lit) (red : Bool) (ID : Nat) : Watched :=
  ⟨lit.toInt % 2 ^ 32, .watch_binary_t,
    ((if red then 1 else 0) + ID * 4 % 2 ^ 64) % 2 ^ EFFECTIVELY_USEABLE_BITS⟩

def Watched.getType (w : Watched) : WatchType := w.type

def Watched.isBin (w : Watched) : Bool := decide (w.type = .watch_binary_t)

def Watched.isClause (w : Watched) : Bool := decide (w.type = .watch_clause_t)

def Watched.isIdx (w : Watched) : Bool := decide (w.type = .watch_idx_t)

def Watched.isBNN (w : Watched) : Bool := decide (w.type = .watch_bnn_t)

def Watched.get_idx (w : Watched) : Nat := w.data1

def Watched.get_bnn (w : Watched) : Nat := w.data1

def Watched.get_bnn_prop_t (w : Watched) : BNNPropType := BNNPropType.ofData2 w.data2

/-- `setBlockedLit`: updates `data1` of a long-clause watch. -/
def Watched.setBlockedLit (w : Watched) (blockedLit : Lit) : Watched :=
  { w with data1 := blockedLit.toInt % 2 ^ 32 }

def Watched.lit2 (w : Watched) : Lit := Lit.toLit w.data1

def Watched.setLit2 (w : Watched) (lit : Lit) : Watched :=
  { w with data1 := lit.toInt % 2 ^ 32 }

/-- `red()`: `data2 & 1` as a boolean. -/
def Watched.red (w : Watched) : Bool := decide (w.data2 % 2 = 1)

/-- `get_ID()`: `data2 >> 2`. -/
def Watched.get_ID (w : Watched) : Nat := w.data2 / 4

/-- `setRed(toSet)`: carries the active precondition
`assert(toSet == false)`; the body clears bit 0 of `data2`
(`data2 &= ~1U`) regardless of `toSet`. -/
def Watched.setRed (w : Watched) (toSet : Bool) : Watched :=
  { w with data2 := 2 * (w.data2 / 2) }

/-- `mark_bin_cl()`: `data2 |= 2` (sets bit 1). -/
def Watched.mark_bin_cl (w : Watched) : Watched :=
  { w with data2 := w.data2 % 2 + 2 + 4 * (w.data2 / 4) }

/-- `unmark_bin_cl()`: `data2 &= ~2ULL` (clears bit 1). -/
def Watched.unmark_bin_cl (w : Watched) : Watched :=
  { w with data2 := w.data2 % 2 + 4 * (w.data2 / 4) }

/-- `bin_cl_marked()`: `data2 & 2` as a boolean. -/
def Watched.bin_cl_marked (w : Watched) : Bool := decide (w.data2 / 2 % 2 = 1)

def Watched.getBlockedLit (w : Watched) : Lit := Lit.toLit w.data1

def Watched.getAbst (w : Watched) : Nat := w.data1

def Watched.get_offset (w : Watched) : Nat := w.data2

/-- `struct OccurClause`: a literal paired with a watch record;
`operator==` is structural on both fields, matching derived equality. -/
structure OccurClause where
  lit : Lit
  ws : Watched
deriving DecidableEq

/-- `OccurClause::operator<`.  The offset branch carries the active
preconditions `assert(!ws.isBNN())` and `assert(!other.ws.isBNN())`. -/
def OccurClause.lt (a b : OccurClause) : Bool :=
  if a.ws.isBin && !b.ws.isBin then true
  else if !a.ws.isBin && b.ws.isBin then false
  else if a.ws.isBin then Lit.lt a.ws.lit2 b.ws.lit2
  else decide (a.ws.get_offset < b.ws.get_offset)

/-- `WatchSorterBinTriLong::operator()`.  Carries the active
preconditions `assert(!a.isIdx())` and `assert(!b.isIdx())`. -/
def WatchSorterBinTriLong (a b : Watched) : Bool :=
  if a.isClause || a.isBNN then false
  else if b.isClause || b.isBNN then true
  else if a.lit2 ≠ b.lit2 then Lit.lt a.lit2 b.lit2
  else if a.red ≠ b.red then !a.red
  else decide (a.get_ID < b.get_ID)

/-- C8: A default-constructed record is tagged as a long clause, its
first word is the maximum 32-bit value, and its second word is the
maximum value of the 30-bit budget (32 bits minus the 2 discriminant
bits). -/
theorem C8_default_sentinel :
    Watched.mk_default.getType = WatchType.watch_clause_t ∧
    Watched.mk_default.data1 = 2 ^ 32 - 1 ∧
    Watched.mk_default.data2 = 2 ^ EFFECTIVELY_USEABLE_BITS - 1 := by
  refine ⟨rfl, rfl, ?_⟩
  decide

/-- C1: For every variant, constructing a record and reading back each of
that variant's defined accessors returns exactly the arguments passed in:
binary (lit, red, ID with ID inside the 28-bit identifier budget) via
`lit2`/`red`/`get_ID`; long clause (offset, blocking literal) and
(offset, abstraction) via `getBlockedLit`/`getAbst`/`get_offset`; index
via `get_idx`; bnn via `get_bnn`/`get_bnn_prop_t`. -/
theorem C1_round_trip (lit bl : Lit) (red : Bool) (ID off abst idx ib : Nat)
    (bpt : BNNPropType)
    (hlit : lit.toInt < 2 ^ 32) (hID : ID < 2 ^ 28) (hoff : off < 2 ^ 30)
    (hbl : bl.toInt < 2 ^ 32) (habst : abst < 2 ^ 32) (hidx : idx < 2 ^ 32)
    (hib : ib < 2 ^ 32) :
    (Watched.mk_bin lit red ID).lit2 = lit ∧
    (Watched.mk_bin lit red ID).red = red ∧
    (Watched.mk_bin lit red ID).get_ID = ID ∧
    (Watched.mk_clause_blocked off bl).getBlockedLit = bl ∧
    (Watched.mk_clause_blocked off bl).get_offset = off ∧
    (Watched.mk_clause_abst off abst).getAbst = abst ∧
    (Watched.mk_clause_abst off abst).get_offset = off ∧
    (Watched.mk_idx idx .watch_idx_t).get_idx = idx ∧
    (Watched.mk_bnn ib .watch_bnn_t bpt).get_bnn = ib ∧
    (Watched.mk_bnn ib .watch_bnn_t bpt).get_bnn_prop_t = bpt := by
  have hd2 : ((if red then 1 else 0) + ID * 4 % 2 ^ 64) % 2 ^ EFFECTIVELY_USEABLE_BITS
      = (if red then 1 else 0) + ID * 4 := by
    simp only [EFFECTIVELY_USEABLE_BITS]
    cases red <;> simp <;> omega
  refine ⟨?_, ?_, ?_, ?_, ?_, ?_, ?_, ?_, ?_, ?_⟩
  · show Lit.toLit (lit.toInt % 2 ^ 32) = lit
    rw [Nat.mod_eq_of_lt hlit]
    rfl
  · show decide (((if red then 1 else 0) + ID * 4 % 2 ^ 64) %
      2 ^ EFFECTIVELY_USEABLE_BITS % 2 = 1) = red
    rw [hd2]
    cases red <;> simp <;> omega
  · show ((if red then 1 else 0) + ID * 4 % 2 ^ 64) %
      2 ^ EFFECTIVELY_USEABLE_BITS / 4 = ID
    rw [hd2]
    cases red <;> simp <;> omega
  · show Lit.toLit (bl.toInt % 2 ^ 32) = bl
    rw [Nat.mod_eq_of_lt hbl]
    rfl
  · show off % 2 ^ EFFECTIVELY_USEABLE_BITS = off
    simp only [EFFECTIVELY_USEABLE_BITS]
    omega
  · show abst % 2 ^ 32 = abst
    omega
  · show off % 2 ^ EFFECTIVELY_USEABLE_BITS = off
    simp only [EFFECTIVELY_USEABLE_BITS]
    omega
  · show idx % 2 ^ 32 = idx
    omega
  · show ib % 2 ^ 32 = ib
    omega
  · show BNNPropType.ofData2 (bpt.toNat % 2 ^ EFFECTIVELY_USEABLE_BITS) = bpt
    cases bpt <;> rfl

theorem C1_round_trip_witness :
    (Watched.mk_bin ⟨7⟩ true 12345).lit2 = ⟨7⟩ ∧
    (Watched.mk_bin ⟨7⟩ true 12345).red = true ∧
    (Watched.mk_bin ⟨7⟩ true 12345).get_ID = 12345 ∧
    (Watched.mk_clause_blocked 5 ⟨9⟩).getBlockedLit = ⟨9⟩ ∧
    (Watched.mk_clause_blocked 5 ⟨9⟩).get_offset = 5 ∧
    (Watched.mk_clause_abst 5 77).getAbst = 77 ∧
    (Watched.mk_clause_abst 5 77).get_offset = 5 ∧
    (Watched.mk_idx 3 .watch_idx_t).get_idx = 3 ∧
    (Watched.mk_bnn 4 .watch_bnn_t .bnn_out_t).get_bnn = 4 ∧
    (Watched.mk_bnn 4 .watch_bnn_t .bnn_out_t).get_bnn_prop_t = .bnn_out_t :=
  C1_round_trip ⟨7⟩ ⟨9⟩ true 12345 5 77 3 4 .bnn_out_t (by decide) (by decide)
    (by decide) (by decide) (by decide) (by decide) (by decide)

/-- C3: `setRed false` on an irreducible binary record is a no-op (it
never sets the flag and leaves the record unchanged), and on a redundant
binary record the second application changes nothing. -/
theorem C3_setRed_direction (w : Watched) (hbin : w.isBin = true) :
    (w.red = false → w.setRed false = w) ∧
    (w.red = true → (w.setRed false).setRed false = w.setRed false) := by
  obtain ⟨d1, t, d2⟩ := w
  constructor
  · intro hred
    simp only [Watched.red, decide_eq_false_iff_not] at hred
    simp only [Watched.setRed, Watched.mk.injEq, and_true, true_and]
    omega
  · intro hred
    simp only [Watched.setRed, Watched.mk.injEq, and_true, true_and]
    omega

theorem C3_setRed_direction_witness :
    (Watched.mk_bin ⟨3⟩ false 7).setRed false = Watched.mk_bin ⟨3⟩ false 7 ∧
    ((Watched.mk_bin ⟨3⟩ true 7).setRed false).setRed false
      = (Watched.mk_bin ⟨3⟩ true 7).setRed false :=
  ⟨(C3_setRed_direction (Watched.mk_bin ⟨3⟩ false 7) (by decide)).1 (by decide),
   (C3_setRed_direction (Watched.mk_bin ⟨3⟩ true 7) (by decide)).2 (by decide)⟩

/-- C9: On a redundant binary record, `setRed false` changes only the
redundancy flag: the marked bit, the clause identifier, the other
literal, and the discriminant are all unchanged. -/
theorem C9_setRed_frame (w : Watched) (hbin : w.isBin = true)
    (hred : w.red = true) :
    (w.setRed false).bin_cl_marked = w.bin_cl_marked ∧
    (w.setRed false).get_ID = w.get_ID ∧
    (w.setRed false).lit2 = w.lit2 ∧
    (w.setRed false).getType = w.getType := by
  obtain ⟨d1, t, d2⟩ := w
  refine ⟨?_, ?_, rfl, rfl⟩
  · simp only [Watched.setRed, Watched.bin_cl_marked, decide_eq_decide]
    omega
  · simp only [Watched.setRed, Watched.get_ID]
    omega

theorem C9_setRed_frame_witness :
    ((Watched.mk_bin ⟨6⟩ true 42).setRed false).bin_cl_marked
      = (Watched.mk_bin ⟨6⟩ true 42).bin_cl_marked ∧
    ((Watched.mk_bin ⟨6⟩ true 42).setRed false).get_ID
      = (Watched.mk_bin ⟨6⟩ true 42).get_ID ∧
    ((Watched.mk_bin ⟨6⟩ true 42).setRed false).lit2
      = (Watched.mk_bin ⟨6⟩ true 42).lit2 ∧
    ((Watched.mk_bin ⟨6⟩ true 42).setRed false).getType
      = (Watched.mk_bin ⟨6⟩ true 42).getType :=
  C9_setRed_frame (Watched.mk_bin ⟨6⟩ true 42) (by decide) (by decide)

/-- C4 counterexample: constructing a binary watch with identifier one
beyond the 28-bit maximum is NOT rejected or flagged by any
construction-time check; the constructor silently produces an ordinary
binary-tagged record whose stored identifier has wrapped to 0. -/
theorem C4_counterexample :
    (Watched.mk_bin ⟨0⟩ false (2 ^ 28)).isBin = true ∧
    (Watched.mk_bin ⟨0⟩ false (2 ^ 28)).get_ID = 0 ∧
    (2 ^ 28 : Nat) ≠ 0 := by
  refine ⟨rfl, ?_, by decide⟩
  show (0 + 2 ^ 28 * 4 % 2 ^ 64) % 2 ^ EFFECTIVELY_USEABLE_BITS / 4 = 0
  simp [EFFECTIVELY_USEABLE_BITS]

/-- C4 amended: constructing a binary watch with the maximum 28-bit
identifier succeeds and round-trips through `get_ID`; any larger
identifier is silently accepted, the stored identifier being truncated
modulo 2^28 — the source constructor performs no construction-time
check. -/
theorem C4_amended_truncation (lit : Lit) (red : Bool) (ID : Nat) :
    (Watched.mk_bin lit red ID).get_ID = ID % 2 ^ 28 ∧
    (Watched.mk_bin lit red (2 ^ 28 - 1)).get_ID = 2 ^ 28 - 1 := by
  constructor
  · show ((if red then 1 else 0) + ID * 4 % 2 ^ 64) %
      2 ^ EFFECTIVELY_USEABLE_BITS / 4 = ID % 2 ^ 28
    simp only [EFFECTIVELY_USEABLE_BITS]
    cases red <;> simp <;> omega
  · show ((if red then 1 else 0) + (2 ^ 28 - 1) * 4 % 2 ^ 64) %
      2 ^ EFFECTIVELY_USEABLE_BITS / 4 = 2 ^ 28 - 1
    simp only [EFFECTIVELY_USEABLE_BITS]
    cases red <;> simp

/-- Helper: the comparator returns false whenever the left operand is
clause- or bnn-tagged (first branch of the source). -/
theorem wst_left_nonbin (a b : Watched) (ha : a.isClause = true ∨ a.isBNN = true) :
    WatchSorterBinTriLong a b = false := by
  rcases ha with h | h <;> simp [WatchSorterBinTriLong, h]

/-- Helper: the comparator returns true when the left operand is binary
and the right is clause- or bnn-tagged (second branch of the source). -/
theorem wst_bin_nonbin (a b : Watched) (ha : a.isBin = true)
    (hb : b.isClause = true ∨ b.isBNN = true) :
    WatchSorterBinTriLong a b = true := by
  simp only [Watched.isBin, decide_eq_true_eq] at ha
  simp only [Watched.isClause, Watched.isBNN, decide_eq_true_eq] at hb
  rcases hb with h | h <;>
    simp [WatchSorterBinTriLong, Watched.isClause, Watched.isBNN, ha, h]

/-- Helper: between two binary records the comparator is the strict
lexicographic comparison of (other-literal encoding, redundancy bit,
identifier). -/
theorem wst_bin_bin (a b : Watched) (ha : a.isBin = true) (hb : b.isBin = true) :
    WatchSorterBinTriLong a b =
      decide (a.data1 < b.data1 ∨
        (a.data1 = b.data1 ∧ (a.data2 % 2 < b.data2 % 2 ∨
          (a.data2 % 2 = b.data2 % 2 ∧ a.data2 / 4 < b.data2 / 4)))) := by
  simp only [Watched.isBin, decide_eq_true_eq] at ha hb
  obtain ⟨d1a, ta, d2a⟩ := a
  obtain ⟨d1b, tb, d2b⟩ := b
  subst ha hb
  simp only [WatchSorterBinTriLong, Watched.isClause, Watched.isBNN, Watched.isBin,
    Watched.lit2, Lit.toLit, Watched.red, Watched.get_ID, Lit.lt, Lit.mk.injEq]
  simp only [decide_eq_true_eq, reduceCtorEq, decide_False, Bool.or_self,
    Bool.false_eq_true, if_false, ne_eq, decide_eq_decide]
  split_ifs with h1 h2
  · simp only [Lit.mk.injEq] at h1
    rw [decide_eq_decide]
    omega
  · simp only [Lit.mk.injEq] at h1
    by_cases hp : d2a % 2 = 1
    · simp only [hp, decide_True, Bool.not_true]
      symm
      rw [decide_eq_false_iff_not]
      omega
    · simp only [hp, decide_False, Bool.not_false]
      symm
      rw [decide_eq_true_eq]
      omega
  · simp only [Lit.mk.injEq] at h1
    rw [decide_eq_decide]
    omega

/-- C2: The canonical watch-list comparator (a) never ranks a clause- or
bnn-tagged left operand below anything, and ranks a binary left operand
below a clause- or bnn-tagged right operand; (b) between two binary
records it returns true iff the left other-literal is smaller, or the
other-literals are equal and left is irreducible while right is
redundant, or both keys are equal and the left identifier is smaller. -/
theorem C2_sorter_cases (a b : Watched) :
    ((a.isClause = true ∨ a.isBNN = true) → WatchSorterBinTriLong a b = false) ∧
    ((b.isClause = true ∨ b.isBNN = true) → a.isBin = true →
      WatchSorterBinTriLong a b = true) ∧
    (a.isBin = true → b.isBin = true →
      (WatchSorterBinTriLong a b = true ↔
        (Lit.lt a.lit2 b.lit2 = true ∨
         (a.lit2 = b.lit2 ∧ a.red = false ∧ b.red = true) ∨
         (a.lit2 = b.lit2 ∧ a.red = b.red ∧ a.get_ID < b.get_ID)))) := by
  refine ⟨fun ha => wst_left_nonbin a b ha, fun hb ha => wst_bin_nonbin a b ha hb, ?_⟩
  intro ha hb
  rw [wst_bin_bin a b ha hb]
  simp only [decide_eq_true_eq, Watched.lit2, Lit.toLit, Lit.lt, Watched.red,
    Watched.get_ID, Lit.mk.injEq, decide_eq_decide, decide_eq_false_iff_not]
  omega

theorem C2_sorter_cases_witness :
    WatchSorterBinTriLong (Watched.mk_clause_blocked 3 ⟨1⟩)
      (Watched.mk_bin ⟨0⟩ false 1) = false ∧
    WatchSorterBinTriLong (Watched.mk_bin ⟨0⟩ false 1)
      (Watched.mk_clause_blocked 3 ⟨1⟩) = true :=
  ⟨(C2_sorter_cases (Watched.mk_clause_blocked 3 ⟨1⟩) (Watched.mk_bin ⟨0⟩ false 1)).1
      (Or.inl (by decide)),
   (C2_sorter_cases (Watched.mk_bin ⟨0⟩ false 1) (Watched.mk_clause_blocked 3 ⟨1⟩)).2.1
      (Or.inl (by decide)) (by decide)⟩

/-- C10: The comparator returns false whenever its left operand is
clause- or bnn-tagged, regardless of the right operand; consequently any
two non-binary records are equivalent under it (neither sorts before the
other), so long-clause records are never ordered by their offsets. -/
theorem C10_nonbin_equivalent (a b : Watched) :
    ((a.isClause = true ∨ a.isBNN = true) → WatchSorterBinTriLong a b = false) ∧
    ((a.isClause = true ∨ a.isBNN = true) → (b.isClause = true ∨ b.isBNN = true) →
      WatchSorterBinTriLong a b = false ∧ WatchSorterBinTriLong b a = false) :=
  ⟨fun ha => wst_left_nonbin a b ha,
   fun ha hb => ⟨wst_left_nonbin a b ha, wst_left_nonbin b a hb⟩⟩

theorem C10_nonbin_equivalent_witness :
    WatchSorterBinTriLong (Watched.mk_clause_blocked 5 ⟨1⟩)
      (Watched.mk_clause_blocked 9 ⟨1⟩) = false ∧
    WatchSorterBinTriLong (Watched.mk_clause_blocked 9 ⟨1⟩)
      (Watched.mk_clause_blocked 5 ⟨1⟩) = false :=
  (C10_nonbin_equivalent (Watched.mk_clause_blocked 5 ⟨1⟩)
    (Watched.mk_clause_blocked 9 ⟨1⟩)).2 (Or.inl (by decide)) (Or.inl (by decide))

/-- C6: Over binary- and long-clause-tagged records, the canonical
watch-list comparator is a strict weak ordering: irreflexive, asymmetric
(never both a < b and b < a), transitive, and its incomparability
relation is transitive. -/
theorem C6_sorter_swo (a b c : Watched)
    (ha : a.isBin = true ∨ a.isClause = true)
    (hb : b.isBin = true ∨ b.isClause = true)
    (hc : c.isBin = true ∨ c.isClause = true) :
    WatchSorterBinTriLong a a = false ∧
    (WatchSorterBinTriLong a b = true → WatchSorterBinTriLong b a = false) ∧
    (WatchSorterBinTriLong a b = true → WatchSorterBinTriLong b c = true →
      WatchSorterBinTriLong a c = true) ∧
    ((WatchSorterBinTriLong a b = false ∧ WatchSorterBinTriLong b a = false) →
      (WatchSorterBinTriLong b c = false ∧ WatchSorterBinTriLong c b = false) →
      (WatchSorterBinTriLong a c = false ∧ WatchSorterBinTriLong c a = false)) := by
  rcases ha with ha | ha <;> rcases hb with hb | hb <;> rcases hc with hc | hc
  · rw [wst_bin_bin a a ha ha, wst_bin_bin a b ha hb, wst_bin_bin b a hb ha,
      wst_bin_bin b c hb hc, wst_bin_bin c b hc hb, wst_bin_bin a c ha hc,
      wst_bin_bin c a hc ha]
    simp only [decide_eq_true_eq, decide_eq_false_iff_not]
    omega
  · rw [wst_bin_bin a a ha ha, wst_bin_bin a b ha hb, wst_bin_bin b a hb ha,
      wst_bin_nonbin b c hb (Or.inl hc), wst_left_nonbin c b (Or.inl hc),
      wst_bin_nonbin a c ha (Or.inl hc), wst_left_nonbin c a (Or.inl hc)]
    simp
    omega
  · rw [wst_bin_bin a a ha ha, wst_bin_nonbin a b ha (Or.inl hb),
      wst_left_nonbin b a (Or.inl hb), wst_left_nonbin b c (Or.inl hb),
      wst_bin_nonbin c b hc (Or.inl hb), wst_bin_bin a c ha hc,
      wst_bin_bin c a hc ha]
    simp
  · rw [wst_bin_bin a a ha ha, wst_bin_nonbin a b ha (Or.inl hb),
      wst_left_nonbin b a (Or.inl hb), wst_left_nonbin b c (Or.inl hb),
      wst_left_nonbin c b (Or.inl hc), wst_bin_nonbin a c ha (Or.inl hc),
      wst_left_nonbin c a (Or.inl hc)]
    simp
  · rw [wst_left_nonbin a a (Or.inl ha), wst_left_nonbin a b (Or.inl ha),
      wst_bin_nonbin b a hb (Or.inl ha), wst_bin_bin b c hb hc,
      wst_bin_bin c b hc hb, wst_left_nonbin a c (Or.inl ha),
      wst_bin_nonbin c a hc (Or.inl ha)]
    simp
  · rw [wst_left_nonbin a a (Or.inl ha), wst_left_nonbin a b (Or.inl ha),
      wst_bin_nonbin b a hb (Or.inl ha), wst_bin_nonbin b c hb (Or.inl hc),
      wst_left_nonbin c b (Or.inl hc), wst_left_nonbin a c (Or.inl ha),
      wst_left_nonbin c a (Or.inl hc)]
    simp
  · rw [wst_left_nonbin a a (Or.inl ha), wst_left_nonbin a b (Or.inl ha),
      wst_left_nonbin b a (Or.inl hb), wst_left_nonbin b c (Or.inl hb),
      wst_bin_nonbin c b hc (Or.inl hb), wst_left_nonbin a c (Or.inl ha),
      wst_bin_nonbin c a hc (Or.inl ha)]
    simp
  · rw [wst_left_nonbin a a (Or.inl ha), wst_left_nonbin a b (Or.inl ha),
      wst_left_nonbin b a (Or.inl hb), wst_left_nonbin b c (Or.inl hb),
      wst_left_nonbin c b (Or.inl hc), wst_left_nonbin a c (Or.inl ha),
      wst_left_nonbin c a (Or.inl hc)]
    simp

theorem C6_sorter_swo_witness :
    WatchSorterBinTriLong (Watched.mk_bin ⟨1⟩ false 1)
      (Watched.mk_bin ⟨1⟩ false 1) = false :=
  (C6_sorter_swo (Watched.mk_bin ⟨1⟩ false 1) (Watched.mk_bin ⟨2⟩ false 2)
    (Watched.mk_clause_blocked 7 ⟨3⟩) (Or.inl (by decide)) (Or.inl (by decide))
    (Or.inr (by decide))).1

/-- Helper: a binary pair sorts before a non-binary pair. -/
theorem occ_lt_bin_nonbin (a b : OccurClause) (h1 : a.ws.isBin = true)
    (h2 : b.ws.isBin = false) : OccurClause.lt a b = true := by
  simp [OccurClause.lt, h1, h2]

/-- Helper: a non-binary pair never sorts before a binary pair. -/
theorem occ_lt_nonbin_bin (a b : OccurClause) (h1 : a.ws.isBin = false)
    (h2 : b.ws.isBin = true) : OccurClause.lt a b = false := by
  simp [OccurClause.lt, h1, h2]

/-- Helper: two binary pairs compare by the other-literal stored in the
record. -/
theorem occ_lt_bin_bin (a b : OccurClause) (h1 : a.ws.isBin = true)
    (h2 : b.ws.isBin = true) :
    OccurClause.lt a b = Lit.lt a.ws.lit2 b.ws.lit2 := by
  simp [OccurClause.lt, h1, h2]

/-- Helper: two non-binary pairs compare by clause offset. -/
theorem occ_lt_nonbin_nonbin (a b : OccurClause) (h1 : a.ws.isBin = false)
    (h2 : b.ws.isBin = false) :
    OccurClause.lt a b = decide (a.ws.get_offset < b.ws.get_offset) := by
  simp [OccurClause.lt, h1, h2]

/-- Helper: a clause-tagged record is not binary-tagged. -/
theorem isBin_false_of_isClause (w : Watched) (h : w.isClause = true) :
    w.isBin = false := by
  simp only [Watched.isClause, decide_eq_true_eq] at h
  simp [Watched.isBin, h]

/-- C5: A binary-watch pair sorts before any non-binary pair; two binary
pairs compare by the other-literal inside the record (not the pair's own
literal); two non-binary pairs compare by clause offset; and the pair
(A, binary other=B) sorts before (A, long clause at offset 5) for every
A and B. -/
theorem C5_occur_order (a b : OccurClause) (A B bl : Lit) (red : Bool) (ID : Nat) :
    (a.ws.isBin = true → b.ws.isBin = false → OccurClause.lt a b = true) ∧
    (a.ws.isBin = true → b.ws.isBin = true →
      OccurClause.lt a b = Lit.lt a.ws.lit2 b.ws.lit2) ∧
    (a.ws.isBin = false → b.ws.isBin = false →
      OccurClause.lt a b = decide (a.ws.get_offset < b.ws.get_offset)) ∧
    OccurClause.lt ⟨A, Watched.mk_bin B red ID⟩
      ⟨A, Watched.mk_clause_blocked 5 bl⟩ = true := by
  refine ⟨occ_lt_bin_nonbin a b, occ_lt_bin_bin a b, occ_lt_nonbin_nonbin a b, ?_⟩
  exact occ_lt_bin_nonbin _ _ (by simp [Watched.mk_bin, Watched.isBin])
    (by simp [Watched.mk_clause_blocked, Watched.isBin])

theorem C5_occur_order_witness :
    OccurClause.lt ⟨⟨0⟩, Watched.mk_bin ⟨3⟩ false 1⟩
      ⟨⟨0⟩, Watched.mk_clause_blocked 5 ⟨2⟩⟩ = true :=
  (C5_occur_order ⟨⟨0⟩, Watched.mk_bin ⟨3⟩ false 1⟩
    ⟨⟨0⟩, Watched.mk_clause_blocked 5 ⟨2⟩⟩ ⟨0⟩ ⟨3⟩ ⟨2⟩ false 1).1
    (by decide) (by decide)

/-- C7 counterexample: the occurrence-pair order is not total.  The two
pairs below differ only in the pair's own literal, so they are not
structurally equal, yet neither is less than the other. -/
theorem C7_counterexample :
    (⟨⟨0⟩, Watched.mk_bin ⟨5⟩ false 1⟩ : OccurClause)
      ≠ ⟨⟨1⟩, Watched.mk_bin ⟨5⟩ false 1⟩ ∧
    OccurClause.lt ⟨⟨0⟩, Watched.mk_bin ⟨5⟩ false 1⟩
      ⟨⟨1⟩, Watched.mk_bin ⟨5⟩ false 1⟩ = false ∧
    OccurClause.lt ⟨⟨1⟩, Watched.mk_bin ⟨5⟩ false 1⟩
      ⟨⟨0⟩, Watched.mk_bin ⟨5⟩ false 1⟩ = false := by
  decide

/-- C7 amended: over pairs whose records are binary- or long-clause-
tagged, the order is a strict weak ordering by comparison key, not a
total order: when the keys differ (the records' bin/non-bin classes
differ, two binary records have different other-literals, or two
non-binary records have different offsets) exactly one of a < b, b < a
holds; when the keys agree, a and b are incomparable even if they are
not structurally equal. -/
theorem C7_amended_weak_order (a b : OccurClause)
    (ha : a.ws.isBin = true ∨ a.ws.isClause = true)
    (hb : b.ws.isBin = true ∨ b.ws.isClause = true) :
    ((a.ws.isBin = true → b.ws.isBin = true → a.ws.lit2 ≠ b.ws.lit2) →
     (a.ws.isBin = false → b.ws.isBin = false →
       a.ws.get_offset ≠ b.ws.get_offset) →
     ((OccurClause.lt a b = true ∧ OccurClause.lt b a = false) ∨
      (OccurClause.lt b a = true ∧ OccurClause.lt a b = false))) ∧
    (a.ws.isBin = b.ws.isBin →
     (a.ws.isBin = true → b.ws.isBin = true → a.ws.lit2 = b.ws.lit2) →
     (a.ws.isBin = false → b.ws.isBin = false →
       a.ws.get_offset = b.ws.get_offset) →
     (OccurClause.lt a b = false ∧ OccurClause.lt b a = false)) := by
  have ha2 : a.ws.isBin = true ∨ a.ws.isBin = false :=
    ha.imp id (isBin_false_of_isClause a.ws)
  have hb2 : b.ws.isBin = true ∨ b.ws.isBin = false :=
    hb.imp id (isBin_false_of_isClause b.ws)
  rcases ha2 with ha2 | ha2 <;> rcases hb2 with hb2 | hb2
  · rw [occ_lt_bin_bin a b ha2 hb2, occ_lt_bin_bin b a hb2 ha2]
    obtain ⟨xa⟩ := a.ws.lit2
    obtain ⟨xb⟩ := b.ws.lit2
    constructor
    · intro hne _
      have hxx : xa ≠ xb := by
        intro h
        exact hne ha2 hb2 (by rw [h])
      simp only [Lit.lt, decide_eq_true_eq, decide_eq_false_iff_not]
      omega
    · intro _ heq _
      have hxx : xa = xb := Lit.mk.injEq xa xb ▸ congrArg Lit.x (heq ha2 hb2)
      simp only [Lit.lt, decide_eq_false_iff_not]
      omega
  · rw [occ_lt_bin_nonbin a b ha2 hb2, occ_lt_nonbin_bin b a hb2 ha2]
    exact ⟨fun _ _ => Or.inl ⟨rfl, rfl⟩, fun h => absurd (ha2 ▸ hb2 ▸ h) (by simp)⟩
  · rw [occ_lt_bin_nonbin b a hb2 ha2, occ_lt_nonbin_bin a b ha2 hb2]
    exact ⟨fun _ _ => Or.inr ⟨rfl, rfl⟩, fun h => absurd (ha2 ▸ hb2 ▸ h) (by simp)⟩
  · rw [occ_lt_nonbin_nonbin a b ha2 hb2, occ_lt_nonbin_nonbin b a hb2 ha2]
    constructor
    · intro _ hne
      have hxx := hne ha2 hb2
      simp only [decide_eq_true_eq, decide_eq_false_iff_not]
      omega
    · intro _ _ heq
      have hxx := heq ha2 hb2
      simp only [decide_eq_false_iff_not]
      omega

theorem C7_amended_weak_order_witness :
    (OccurClause.lt ⟨⟨0⟩, Watched.mk_bin ⟨3⟩ false 1⟩
        ⟨⟨9⟩, Watched.mk_bin ⟨4⟩ false 1⟩ = true ∧
      OccurClause.lt ⟨⟨9⟩, Watched.mk_bin ⟨4⟩ false 1⟩
        ⟨⟨0⟩, Watched.mk_bin ⟨3⟩ false 1⟩ = false) ∨
    (OccurClause.lt ⟨⟨9⟩, Watched.mk_bin ⟨4⟩ false 1⟩
        ⟨⟨0⟩, Watched.mk_bin ⟨3⟩ false 1⟩ = true ∧
      OccurClause.lt ⟨⟨0⟩, Watched.mk_bin ⟨3⟩ false 1⟩
        ⟨⟨9⟩, Watched.mk_bin ⟨4⟩ false 1⟩ = false) :=
  (C7_amended_weak_order ⟨⟨0⟩, Watched.mk_bin ⟨3⟩ false 1⟩
    ⟨⟨9⟩, Watched.mk_bin ⟨4⟩ false 1⟩ (Or.inl (by decide)) (Or.inl (by decide))).1
    (fun _ _ => by decide) (fun h _ => absurd h (by decide))

end CMSat
